import Mathlib

/-!
# The XQ starter flow (`src/starter/starter.c`)

A shallow embedding of `main` of `starter.c`: the program authorizes an account, resolves
the PIN / link challenge from one line of standard input, provisions an entropy pool,
encrypts a message, decrypts it again and revokes the key.

The XQ SDK (`<xq/xq.h>`) and the C library are external to the program.  Their calls are
recorded, in program order, in a trace of `Event`s together with their by-value arguments
and return values.  `main` is straight-line code, so every call site is executed at most
once in a run; what the SDK does during one run is therefore given by one outcome per call
site (`Sdk`), and the theorems quantify over every such record.
-/

namespace Starter

/-! ## Data model -/

/-- The C `struct xq_error_info`, as far as `main` reads it (`%li` and `%s`). -/
structure xq_error_info where
  responseCode : Int
  content : Option String
  deriving DecidableEq, Repr

/-- The C `struct xq_subscriber_info`, as far as `main` reads it. -/
structure xq_subscriber_info where
  mailOrPhone : Option String
  deriving DecidableEq, Repr

/-- The C `struct xq_message_payload`; a pointer is `none` when it is null. -/
structure xq_message_payload where
  data : Option String
  length : Nat
  token_or_key : Option String
  deriving DecidableEq, Repr

/-- The one algorithm constant that `main` names. -/
inductive xq_algorithm
  | Algorithm_Autodetect
  deriving DecidableEq, Repr

/-- The three local payload variables of `main`, by address. -/
inductive PayloadVar
  | result
  | encoded
  | decrypted
  deriving DecidableEq, Repr

/-- The two output streams. -/
inductive Stream
  | stdout
  | stderr
  deriving DecidableEq, Repr

/-- An argument of a `fprintf` call. -/
inductive Arg
  | long (v : Int)
  | int (v : Int)
  | str (s : Option String)
  deriving DecidableEq, Repr

/-- What `main` does to the outside world: calls of the C library output function and of
the SDK, with the arguments passed by value and the value returned. -/
inductive Event
  | fprintf (stream : Stream) (format : String) (args : List Arg)
  | xq_init (path : Option String)
  | xq_is_valid_config (ret : Bool)
  | xq_destroy_config
  | xq_svc_authorize (email : Option String) (ret : Bool)
  | xq_svc_code_validation (pin : List Char) (ret : Bool)
  | xq_svc_exchange (ret : Bool)
  | xq_get_access_token (ret : Option String)
  | xq_set_access_token (token : Option String)
  | xq_svc_get_subscriber (ret : Bool)
  | xq_init_pool (size : Nat) (ret : Bool)
  | xq_encrypt_and_store_token (alg : xq_algorithm) (message : String) (length : Nat)
      (entropy : Nat) (recipients : Option String) (hours : Nat) (once : Nat) (ret : Bool)
  | xq_base64_payload (input : xq_message_payload)
  | xq_decrypt_with_token (alg : xq_algorithm) (data : Option String) (length : Nat)
      (token : Option String) (ret : Bool)
  | xq_destroy_payload (which : PayloadVar)
  | xq_svc_remove_key (token : Option String) (ret : Bool)
  | xq_destroy_pool
  deriving DecidableEq, Repr

/-- The outcome of every SDK call site of `main` in one run.  For a call that takes `&err`
the `xq_error_info` component is the content of `err` when the call returns; a payload or
subscriber component is the content of the out-parameter when the call returns. -/
structure Sdk where
  /-- Line 24, on the configuration returned by `xq_init` at line 23. -/
  xq_is_valid_config : Bool
  /-- Line 38. -/
  xq_svc_authorize : Bool × xq_error_info
  /-- Line 54. -/
  xq_svc_code_validation : Bool × xq_error_info
  /-- Line 65. -/
  xq_svc_exchange : Bool × xq_error_info
  /-- Line 75. -/
  xq_get_access_token : Option String
  /-- Line 84, after `xq_set_access_token`. -/
  xq_get_access_token_again : Option String
  /-- Line 94. -/
  xq_svc_get_subscriber : Bool × xq_subscriber_info × xq_error_info
  /-- Line 101. -/
  xq_init_pool : Bool × xq_error_info
  /-- Line 114. -/
  xq_encrypt_and_store_token : Bool × xq_message_payload × xq_error_info
  /-- Line 136: the content of `encoded` afterwards; `result` is an input only. -/
  xq_base64_payload : xq_message_payload
  /-- Line 147. -/
  xq_decrypt_with_token : Bool × xq_message_payload × xq_error_info
  /-- Line 168. -/
  xq_svc_remove_key : Bool × xq_error_info

/-- How a run of `main` ends: the exit status of the process and everything it did. -/
structure Outcome where
  status : Int
  trace : List Event

/-! ## The C library functions used by `main` -/

/-- The terminating character of a C string. -/
def NUL : Char := Char.ofNat 0

/-- The failure status of `<stdlib.h>`. -/
def EXIT_FAILURE : Int := 1

/-- The characters `fgets` takes from the stream when it may store `k` of them: it stops
after a newline, which it keeps, and at the end of the stream. -/
def fgets_chars : Nat → List Char → List Char
  | 0, _ => []
  | _ + 1, [] => []
  | k + 1, c :: cs => if c = '\n' then [c] else c :: fgets_chars k cs

/-- The buffer after `fgets(buf, n, stdin)`: the characters read, then a NUL, then what the
buffer held before.  At the end of the stream nothing is read and the buffer is unchanged. -/
def fgets (buf : List Char) (n : Nat) (stdin : List Char) : List Char :=
  if n = 0 ∨ stdin = [] then buf
  else
    let cs := fgets_chars (n - 1) stdin
    cs ++ NUL :: buf.drop (cs.length + 1)

/-- The C `strcspn(s, reject)`: the length of the longest initial part of the C string in
`s` that has no character of `reject`. -/
def strcspn : List Char → List Char → Nat
  | [], _ => 0
  | c :: cs, reject => if c = NUL ∨ c ∈ reject then 0 else strcspn cs reject + 1

/-- The C `strlen`, on a string literal. -/
def strlen (s : String) : Nat := s.length

/-- The C string that a `char` buffer holds: its characters up to the first NUL. -/
def cstring (buf : List Char) : List Char := buf.takeWhile (fun c => c ≠ NUL)

/-- The `fprintf(stderr, "%li, %s", err.responseCode, err.content)` of the failure branches. -/
def print_err (err : xq_error_info) : Event :=
  .fprintf .stderr "%li, %s" [.long err.responseCode, .str err.content]

/-! ## `main` -/

/-- The buffer `pin` after `fgets( pin, 7, stdin )` at line 48, from `char pin[7] = {0}`. -/
def pin_buffer (stdin : List Char) : List Char :=
  fgets (List.replicate 7 NUL) 7 stdin

/-- The value of `read` at line 49. -/
def pin_read (stdin : List Char) : Nat :=
  strcspn (pin_buffer stdin) ['\n']

/-- The C string in `pin` after `pin[read] = 0` at line 52. -/
def pin_string (stdin : List Char) : List Char :=
  cstring ((pin_buffer stdin).set (pin_read stdin) NUL)

/-- Sequencing: the events `es` happen, then the program goes on as `rest`. -/
def emit (es : List Event) (rest : Outcome) : Outcome :=
  ⟨rest.status, es ++ rest.trace⟩

/-- The C `exit(status)`, and `return status` from `main`: the run ends here. -/
def exit (status : Int) : Outcome :=
  ⟨status, []⟩

/-- The function `main` of `starter.c`.  `argv` holds the `argc` program arguments, the
program name first, so that `argv[argc]` is null; `stdin` is what standard input holds. -/
def main (sdk : Sdk) (argv : List String) (stdin : List Char) : Outcome :=
  let argc := argv.length
  if argc < 2 then
    emit [.fprintf .stderr "Usage: path_to_config_file email_address\n\n" [],
          .fprintf .stderr "path_to_config_file: The path to the xq.ini configuration file containing your XQ API keys.\n" [],
          .fprintf .stderr "email_address: The email account to use for authorization. Your account confirmation links will be sent here.\n" []] <|
    exit EXIT_FAILURE
  else
  -- 1. SDK Initialization
  emit [.xq_init argv[1]?, .xq_is_valid_config sdk.xq_is_valid_config] <|
  if !sdk.xq_is_valid_config then
    emit [.xq_destroy_config] <| exit EXIT_FAILURE
  else
  -- 3. Authenticate a user.
  let email_address : Option String := argv[2]?
  emit [.xq_svc_authorize email_address sdk.xq_svc_authorize.1] <|
  if !sdk.xq_svc_authorize.1 then
    emit [print_err sdk.xq_svc_authorize.2, .xq_destroy_config] <| exit EXIT_FAILURE
  else
  emit [.fprintf .stdout "Enter PIN: " []] <|
  -- `fflush(stdout)` changes nothing here: an output is recorded when it is made.
  let read : Nat := pin_read stdin
  let challenge : Outcome → Outcome := fun rest =>
    if read > 0 then
      let pin : List Char := pin_string stdin
      emit [.fprintf .stdout "Attempting to authorize with PIN %s...\n" [.str (some (String.mk pin))],
            .xq_svc_code_validation pin sdk.xq_svc_code_validation.1] <|
      if !sdk.xq_svc_code_validation.1 then
        emit [print_err sdk.xq_svc_code_validation.2, .xq_destroy_config] <| exit EXIT_FAILURE
      else rest
    else
      -- If no PIN was provided, assume the link was clicked and attempt an exchange.
      emit [.fprintf .stdout "No PIN provided. Checking authorization state...\n" [],
            .xq_svc_exchange sdk.xq_svc_exchange.1] <|
      if !sdk.xq_svc_exchange.1 then
        emit [print_err sdk.xq_svc_exchange.2, .xq_destroy_config] <| exit EXIT_FAILURE
      else rest
  challenge <|
  emit [.fprintf .stdout "Account authorized.\n" []] <|
  -- Retrieving your access token
  let access_token : Option String := sdk.xq_get_access_token
  emit [.xq_get_access_token access_token] <|
  if access_token.isNone then
    emit [.xq_destroy_config] <| exit EXIT_FAILURE
  else
  emit [.fprintf .stdout "Access Token: %s\n" [.str access_token],
        .xq_set_access_token access_token] <|
  let access_token' : Option String := sdk.xq_get_access_token_again
  emit [.xq_get_access_token access_token'] <|
  if access_token'.isNone then
    emit [.xq_destroy_config] <| exit EXIT_FAILURE
  else
  emit [.fprintf .stdout "Access Token: %s\n" [.str access_token']] <|
  -- Retrieve information about this user.
  let info : xq_subscriber_info := sdk.xq_svc_get_subscriber.2.1
  emit [.xq_svc_get_subscriber sdk.xq_svc_get_subscriber.1] <|
  if !sdk.xq_svc_get_subscriber.1 then
    emit [.xq_destroy_config] <| exit EXIT_FAILURE
  else
  -- Initialize a sample quantum pool.
  emit [.xq_init_pool 256 sdk.xq_init_pool.1] <|
  if !sdk.xq_init_pool.1 then
    emit [print_err sdk.xq_init_pool.2, .xq_destroy_config] <| exit EXIT_FAILURE
  else
  -- 6. Encrypt a new message
  let message : String := "Hello World"
  let recipients : Option String := info.mailOrPhone
  emit [.fprintf .stdout "Encrypting message: %s...\n" [.str (some message)]] <|
  let result : xq_message_payload := sdk.xq_encrypt_and_store_token.2.1
  emit [.xq_encrypt_and_store_token .Algorithm_Autodetect message (strlen message) 64
          recipients 24 0 sdk.xq_encrypt_and_store_token.1] <|
  if !sdk.xq_encrypt_and_store_token.1 then
    emit [print_err sdk.xq_encrypt_and_store_token.2.2, .xq_destroy_pool,
          .xq_destroy_config] <| exit EXIT_FAILURE
  else
  -- Here, we will convert the result to base64 in order to display onscreen.
  let encoded : xq_message_payload := sdk.xq_base64_payload
  emit [.xq_base64_payload result,
        .fprintf .stdout "Encrypted Message ( Base64 ): %s\n" [.str encoded.data],
        .fprintf .stdout "Token: %s\n" [.str result.token_or_key]] <|
  let decrypted : xq_message_payload := sdk.xq_decrypt_with_token.2.1
  emit [.xq_decrypt_with_token .Algorithm_Autodetect result.data result.length
          result.token_or_key sdk.xq_decrypt_with_token.1] <|
  if !sdk.xq_decrypt_with_token.1 then
    emit [print_err sdk.xq_decrypt_with_token.2.2, .xq_destroy_pool,
          .xq_destroy_config] <| exit EXIT_FAILURE
  else
  emit [.fprintf .stdout "Decrypted Message:%s\n" [.str decrypted.data],
        .fprintf .stdout "Decrypted Length:%i\n" [.int decrypted.length],
        .xq_destroy_payload .decrypted] <|
  -- Revoke the entire message.
  emit [.xq_svc_remove_key result.token_or_key sdk.xq_svc_remove_key.1] <|
  if !sdk.xq_svc_remove_key.1 then
    emit [print_err sdk.xq_svc_remove_key.2, .xq_destroy_pool,
          .xq_destroy_config] <| exit EXIT_FAILURE
  else
  -- Cleanup
  emit [.xq_destroy_payload .encoded, .xq_destroy_payload .result,
        .xq_destroy_pool, .xq_destroy_config] <|
  exit 0

/-! ## Vocabulary of the properties -/

/-- The input line in the C sense: what precedes its first newline or NUL. -/
def c_line (stdin : List Char) : List Char :=
  stdin.takeWhile (fun c => c ≠ '\n' ∧ c ≠ NUL)

/-- The input trimmed at its first line terminator. -/
def line_before_terminator (stdin : List Char) : List Char :=
  stdin.takeWhile (fun c => c ≠ '\n')

/-- The result of the challenge call that the run makes: of `xq_svc_code_validation` when
`read > 0`, of `xq_svc_exchange` otherwise. -/
def challenge_result (sdk : Sdk) (stdin : List Char) : Bool :=
  if pin_read stdin > 0 then sdk.xq_svc_code_validation.1 else sdk.xq_svc_exchange.1

/-- Every stage of the sequence succeeds. -/
def all_stages_succeed (sdk : Sdk) (stdin : List Char) : Prop :=
  sdk.xq_is_valid_config = true ∧
  sdk.xq_svc_authorize.1 = true ∧
  challenge_result sdk stdin = true ∧
  sdk.xq_get_access_token.isSome = true ∧
  sdk.xq_get_access_token_again.isSome = true ∧
  sdk.xq_svc_get_subscriber.1 = true ∧
  sdk.xq_init_pool.1 = true ∧
  sdk.xq_encrypt_and_store_token.1 = true ∧
  sdk.xq_decrypt_with_token.1 = true ∧
  sdk.xq_svc_remove_key.1 = true

/-- Authorization has fully succeeded: the request, the challenge, and both reads of the
access credential. -/
def authorization_succeeded (sdk : Sdk) (stdin : List Char) : Prop :=
  sdk.xq_svc_authorize.1 = true ∧
  challenge_result sdk stdin = true ∧
  sdk.xq_get_access_token.isSome = true ∧
  sdk.xq_get_access_token_again.isSome = true

/-- The three lines of the usage message, on standard error. -/
def usage_message : List Event :=
  [.fprintf .stderr "Usage: path_to_config_file email_address\n\n" [],
   .fprintf .stderr "path_to_config_file: The path to the xq.ini configuration file containing your XQ API keys.\n" [],
   .fprintf .stderr "email_address: The email account to use for authorization. Your account confirmation links will be sent here.\n" []]

/-- A call of `xq_svc_code_validation`. -/
def is_code_validation : Event → Bool
  | .xq_svc_code_validation _ _ => true
  | _ => false

/-- A call of `xq_svc_exchange`. -/
def is_exchange : Event → Bool
  | .xq_svc_exchange _ => true
  | _ => false

/-- A write to standard error. -/
def writes_stderr : Event → Bool
  | .fprintf .stderr _ _ => true
  | _ => false

/-- A call that is passed `&pool`. -/
def uses_pool : Event → Bool
  | .xq_init_pool _ _ => true
  | .xq_encrypt_and_store_token _ _ _ _ _ _ _ _ => true
  | .xq_destroy_pool => true
  | _ => false

/-- A successful call of `xq_init_pool`. -/
def is_pool_created : Event → Bool
  | .xq_init_pool _ ret => ret
  | _ => false

/-- A successful call of `xq_encrypt_and_store_token`. -/
def is_encrypt_success : Event → Bool
  | .xq_encrypt_and_store_token _ _ _ _ _ _ _ ret => ret
  | _ => false

/-- A successful call of `xq_decrypt_with_token`. -/
def is_decrypt_success : Event → Bool
  | .xq_decrypt_with_token _ _ _ _ ret => ret
  | _ => false

/-- A failed call of `xq_encrypt_and_store_token`. -/
def is_encrypt_failure : Event → Bool
  | .xq_encrypt_and_store_token _ _ _ _ _ _ _ ret => !ret
  | _ => false

/-- A failed call of `xq_decrypt_with_token`. -/
def is_decrypt_failure : Event → Bool
  | .xq_decrypt_with_token _ _ _ _ ret => !ret
  | _ => false

/-- A failed call of `xq_svc_remove_key`. -/
def is_revoke_failure : Event → Bool
  | .xq_svc_remove_key _ ret => !ret
  | _ => false

/-- The identities passed to `xq_svc_authorize`, in order. -/
def authorize_identities (t : List Event) : List (Option String) :=
  t.filterMap fun e =>
    match e with
    | .xq_svc_authorize email _ => some email
    | _ => none

/-- The recipients passed to `xq_encrypt_and_store_token`, in order. -/
def encrypt_recipients (t : List Event) : List (Option String) :=
  t.filterMap fun e =>
    match e with
    | .xq_encrypt_and_store_token _ _ _ _ recipients _ _ _ => some recipients
    | _ => none

/-- The data, length and token passed to `xq_decrypt_with_token`, in order. -/
def decrypt_inputs (t : List Event) : List (Option String × Nat × Option String) :=
  t.filterMap fun e =>
    match e with
    | .xq_decrypt_with_token _ data length token _ => some (data, length, token)
    | _ => none

/-- The tokens passed to `xq_svc_remove_key`, in order. -/
def revoke_tokens (t : List Event) : List (Option String) :=
  t.filterMap fun e =>
    match e with
    | .xq_svc_remove_key token _ => some token
    | _ => none

/-- A call of `xq_destroy_config`. -/
def is_destroy_config : Event → Bool
  | .xq_destroy_config => true
  | _ => false

/-- A call of `xq_destroy_pool`. -/
def is_destroy_pool : Event → Bool
  | .xq_destroy_pool => true
  | _ => false

/-- A call of `xq_destroy_payload` on the payload variable `v`. -/
def is_destroy_payload (v : PayloadVar) : Event → Bool
  | .xq_destroy_payload w => decide (w = v)
  | _ => false

/-- What follows, in a trace, the first event that satisfies `p`. -/
def after_first (p : Event → Bool) : List Event → List Event
  | [] => []
  | e :: t => if p e then t else after_first p t

/-- The stages of the flow. -/
inductive Stage
  | init
  | authorize
  | challenge
  | credential
  | getSubscriber
  | createPool
  | encrypt
  | decrypt
  | revoke
  deriving DecidableEq, Repr

/-- The stage that an SDK call belongs to; the calls that only inspect, cache, encode or
release (and the output) belong to none. -/
def stageOf : Event → Option Stage
  | .xq_init _ => some .init
  | .xq_svc_authorize _ _ => some .authorize
  | .xq_svc_code_validation _ _ => some .challenge
  | .xq_svc_exchange _ => some .challenge
  | .xq_get_access_token _ => some .credential
  | .xq_svc_get_subscriber _ => some .getSubscriber
  | .xq_init_pool _ _ => some .createPool
  | .xq_encrypt_and_store_token _ _ _ _ _ _ _ _ => some .encrypt
  | .xq_decrypt_with_token _ _ _ _ _ => some .decrypt
  | .xq_svc_remove_key _ _ => some .revoke
  | _ => none

/-- The fixed order of the stages. -/
def stage_order : List Stage :=
  [.init, .authorize, .challenge, .credential, .getSubscriber, .createPool, .encrypt,
   .decrypt, .revoke]

/-- The fixed order of the stage calls: the access credential is read twice, before and
after it is written back. -/
def stage_call_order : List Stage :=
  [.init, .authorize, .challenge, .credential, .credential, .getSubscriber, .createPool,
   .encrypt, .decrypt, .revoke]

/-- The stage calls in their fixed order, each with its success in this run. -/
def stage_results (sdk : Sdk) (stdin : List Char) : List (Stage × Bool) :=
  [(.init, sdk.xq_is_valid_config),
   (.authorize, sdk.xq_svc_authorize.1),
   (.challenge, challenge_result sdk stdin),
   (.credential, sdk.xq_get_access_token.isSome),
   (.credential, sdk.xq_get_access_token_again.isSome),
   (.getSubscriber, sdk.xq_svc_get_subscriber.1),
   (.createPool, sdk.xq_init_pool.1),
   (.encrypt, sdk.xq_encrypt_and_store_token.1),
   (.decrypt, sdk.xq_decrypt_with_token.1),
   (.revoke, sdk.xq_svc_remove_key.1)]

/-- The stage calls of a trace, in order. -/
def stage_calls (t : List Event) : List Stage :=
  t.filterMap stageOf

/-- The stages up to and including the first one that fails. -/
def cut_at_first_failure : List (Stage × Bool) → List Stage
  | [] => []
  | (s, ok) :: rest => s :: (if ok then cut_at_first_failure rest else [])

/-! ## Concrete runs -/

/-- A command line with both arguments. -/
def argv_example : List String := ["starter", "xq.ini", "user@example.com"]

/-- A command line with the configuration path only. -/
def argv_no_identity : List String := ["starter", "xq.ini"]

/-- A six-digit PIN, typed with its newline. -/
def stdin_pin : List Char := ['4', '8', '2', '9', '1', '3', '\n']

/-- A line that begins with a NUL character. -/
def stdin_nul_first : List Char := [NUL, '\n']

/-- A line with a NUL character after two digits. -/
def stdin_nul_inside : List Char := ['4', '8', NUL, '9', '1', '\n']

/-- An error record of a failed remote call. -/
def err_example : xq_error_info := ⟨401, some "Unauthorized"⟩

/-- A run of the SDK in which every call succeeds. -/
def sdk_ok : Sdk where
  xq_is_valid_config := true
  xq_svc_authorize := (true, ⟨0, none⟩)
  xq_svc_code_validation := (true, ⟨0, none⟩)
  xq_svc_exchange := (true, ⟨0, none⟩)
  xq_get_access_token := some "access-token"
  xq_get_access_token_again := some "access-token"
  xq_svc_get_subscriber := (true, ⟨some "user@example.com"⟩, ⟨0, none⟩)
  xq_init_pool := (true, ⟨0, none⟩)
  xq_encrypt_and_store_token := (true, ⟨some "ciphertext", 10, some "locator-token"⟩, ⟨0, none⟩)
  xq_base64_payload := ⟨some "Y2lwaGVydGV4dA==", 16, none⟩
  xq_decrypt_with_token := (true, ⟨some "Hello World", 11, none⟩, ⟨0, none⟩)
  xq_svc_remove_key := (true, ⟨0, none⟩)

/-- A run of the SDK in which `xq_svc_get_subscriber` fails. -/
def sdk_subscriber_fails : Sdk :=
  { sdk_ok with xq_svc_get_subscriber := (false, ⟨none⟩, err_example) }

/-- A run of the SDK in which `xq_decrypt_with_token` fails. -/
def sdk_decrypt_fails : Sdk :=
  { sdk_ok with xq_decrypt_with_token := (false, ⟨none, 0, none⟩, err_example) }

/-- A run of the SDK in which `xq_svc_remove_key` fails. -/
def sdk_revoke_fails : Sdk :=
  { sdk_ok with xq_svc_remove_key := (false, err_example) }

/-- A run of the SDK in which the subscriber record holds another address than the one
given on the command line. -/
def sdk_other_address : Sdk :=
  { sdk_ok with xq_svc_get_subscriber := (true, ⟨some "+15550100"⟩, ⟨0, none⟩) }

/-! # Theorems -/

set_option maxHeartbeats 4000000

/-! ## Sequencing lemmas -/

theorem emit_status (es : List Event) (r : Outcome) : (emit es r).status = r.status := rfl

theorem emit_trace (es : List Event) (r : Outcome) : (emit es r).trace = es ++ r.trace := rfl

theorem exit_status (n : Int) : (exit n).status = n := rfl

theorem exit_trace (n : Int) : (exit n).trace = [] := rfl

/-! ## The C string read from standard input -/

theorem nul_ne_newline : NUL ≠ '\n' := by decide

theorem strcspn_terminated (cs rest : List Char) :
    strcspn (cs ++ NUL :: rest) ['\n'] = (c_line cs).length := by
  induction cs with
  | nil => simp [strcspn, c_line]
  | cons c cs ih =>
    by_cases h : c = NUL ∨ c = '\n'
    · rcases h with h | h <;> simp [strcspn, c_line, h]
    · push_neg at h
      simp [strcspn, c_line, h, List.takeWhile_cons] at ih ⊢
      exact ih

theorem cstring_set_terminated (cs rest : List Char) :
    cstring ((cs ++ NUL :: rest).set (strcspn (cs ++ NUL :: rest) ['\n']) NUL) = c_line cs := by
  induction cs with
  | nil => simp [strcspn, c_line, cstring]
  | cons c cs ih =>
    by_cases h : c = NUL ∨ c = '\n'
    · rcases h with h | h <;> simp [strcspn, c_line, cstring, h]
    · push_neg at h
      simp [strcspn, c_line, cstring, h, List.takeWhile_cons] at ih ⊢
      exact ih

theorem c_line_fgets_chars (k : Nat) (stdin : List Char) :
    c_line (fgets_chars k stdin) = (c_line stdin).take k := by
  induction k generalizing stdin with
  | zero => simp [fgets_chars]; rfl
  | succ k ih =>
    cases stdin with
    | nil => simp [fgets_chars, c_line]
    | cons c cs =>
      by_cases h : c = '\n'
      · simp [fgets_chars, c_line, h]
      · by_cases h0 : c = NUL
        · subst h0
          simp [fgets_chars, c_line, nul_ne_newline]
        · have := ih cs
          simp [fgets_chars, c_line, h, h0, List.takeWhile_cons] at this ⊢
          exact this

/-- The PIN is the C line, cut to six characters. -/
theorem pin_string_eq (stdin : List Char) : pin_string stdin = (c_line stdin).take 6 := by
  cases stdin with
  | nil => decide
  | cons c cs =>
    unfold pin_string pin_read pin_buffer fgets
    simp only [List.cons_ne_nil, or_false, OfNat.ofNat_ne_zero, if_false]
    rw [cstring_set_terminated, c_line_fgets_chars]

/-- The value of `read` is the length of the PIN. -/
theorem pin_read_eq (stdin : List Char) : pin_read stdin = ((c_line stdin).take 6).length := by
  cases stdin with
  | nil => decide
  | cons c cs =>
    unfold pin_read pin_buffer fgets
    simp only [List.cons_ne_nil, or_false, OfNat.ofNat_ne_zero, if_false]
    rw [strcspn_terminated, c_line_fgets_chars]

theorem pin_read_pos_iff (stdin : List Char) : pin_read stdin > 0 ↔ c_line stdin ≠ [] := by
  rw [pin_read_eq]
  cases h : c_line stdin with
  | nil => simp
  | cons c cs => simp

theorem c_line_no_newline (stdin : List Char) : '\n' ∉ c_line stdin := by
  intro h
  have := List.mem_takeWhile_imp h
  simp at this

theorem c_line_no_nul (stdin : List Char) : NUL ∉ c_line stdin := by
  intro h
  have := List.mem_takeWhile_imp h
  simp at this

theorem c_line_eq_of_no_nul (stdin : List Char) (h : NUL ∉ line_before_terminator stdin) :
    c_line stdin = line_before_terminator stdin := by
  induction stdin with
  | nil => rfl
  | cons c cs ih =>
    by_cases hc : c = '\n'
    · simp [c_line, line_before_terminator, hc]
    · have hn : c ≠ NUL := by
        intro h0
        apply h
        subst h0
        simp [line_before_terminator, List.takeWhile_cons, nul_ne_newline]
      have hrest : NUL ∉ line_before_terminator cs := by
        intro h1
        apply h
        simp only [line_before_terminator, List.takeWhile_cons, hc, decide_not,
          decide_False, Bool.not_false, if_true] at h1 ⊢
        exact List.mem_cons_of_mem _ h1
      have := ih hrest
      simp only [c_line, line_before_terminator] at this ⊢
      simp only [List.takeWhile_cons, hc, hn, ne_eq, not_false_eq_true, and_self, decide_True,
        if_true, this]

/-! ## Exit status -/

/-- C2: `main` exits with 0 exactly when the configuration path is present, the
configuration is valid and every stage (authorize, the challenge call that is made, both
reads of the access credential, getSubscriber, createPool, encrypt, decrypt, revoke)
succeeds; in every other case it exits with the non-zero `EXIT_FAILURE`, and without a
configuration path all it does is print the usage message on standard error. -/
theorem main_status (sdk : Sdk) (argv : List String) (stdin : List Char) :
    ((main sdk argv stdin).status = 0 ↔ (2 ≤ argv.length ∧ all_stages_succeed sdk stdin)) ∧
    ((main sdk argv stdin).status ≠ 0 ↔ (main sdk argv stdin).status = EXIT_FAILURE) ∧
    (argv.length < 2 →
      (main sdk argv stdin).trace = usage_message ∧
      (main sdk argv stdin).status = EXIT_FAILURE) := by
  obtain ⟨v, ⟨a, ae⟩, ⟨cv, cve⟩, ⟨ex, exe⟩, tok, tok', ⟨sub, info, sube⟩, ⟨pool, poole⟩,
    ⟨enc, res, ence⟩, b64, ⟨dec, plain, dece⟩, ⟨rev, reve⟩⟩ := sdk
  by_cases h0 : argv.length < 2
  · have h0' : ¬ 2 ≤ argv.length := by omega
    simp [main, h0, h0', emit_status, emit_trace, exit_status, exit_trace, usage_message,
      EXIT_FAILURE]
  have h0' : 2 ≤ argv.length := by omega
  cases v
  · simp [main, h0, h0', emit_status, exit_status, all_stages_succeed, challenge_result,
      EXIT_FAILURE]
  cases a
  · simp [main, h0, h0', emit_status, exit_status, all_stages_succeed, challenge_result,
      EXIT_FAILURE]
  by_cases hr : pin_read stdin > 0
  · cases cv
    · simp [main, h0, h0', hr, emit_status, exit_status, all_stages_succeed, challenge_result,
        EXIT_FAILURE]
    cases tok
    · simp [main, h0, h0', hr, emit_status, exit_status, all_stages_succeed, challenge_result,
        EXIT_FAILURE]
    cases tok'
    · simp [main, h0, h0', hr, emit_status, exit_status, all_stages_succeed, challenge_result,
        EXIT_FAILURE]
    cases sub
    · simp [main, h0, h0', hr, emit_status, exit_status, all_stages_succeed, challenge_result,
        EXIT_FAILURE]
    cases pool
    · simp [main, h0, h0', hr, emit_status, exit_status, all_stages_succeed, challenge_result,
        EXIT_FAILURE]
    cases enc
    · simp [main, h0, h0', hr, emit_status, exit_status, all_stages_succeed, challenge_result,
        EXIT_FAILURE]
    cases dec
    · simp [main, h0, h0', hr, emit_status, exit_status, all_stages_succeed, challenge_result,
        EXIT_FAILURE]
    cases rev <;>
      simp [main, h0, h0', hr, emit_status, exit_status, all_stages_succeed, challenge_result,
        EXIT_FAILURE]
  · cases ex
    · simp [main, h0, h0', hr, emit_status, exit_status, all_stages_succeed, challenge_result,
        EXIT_FAILURE]
    cases tok
    · simp [main, h0, h0', hr, emit_status, exit_status, all_stages_succeed, challenge_result,
        EXIT_FAILURE]
    cases tok'
    · simp [main, h0, h0', hr, emit_status, exit_status, all_stages_succeed, challenge_result,
        EXIT_FAILURE]
    cases sub
    · simp [main, h0, h0', hr, emit_status, exit_status, all_stages_succeed, challenge_result,
        EXIT_FAILURE]
    cases pool
    · simp [main, h0, h0', hr, emit_status, exit_status, all_stages_succeed, challenge_result,
        EXIT_FAILURE]
    cases enc
    · simp [main, h0, h0', hr, emit_status, exit_status, all_stages_succeed, challenge_result,
        EXIT_FAILURE]
    cases dec
    · simp [main, h0, h0', hr, emit_status, exit_status, all_stages_succeed, challenge_result,
        EXIT_FAILURE]
    cases rev <;>
      simp [main, h0, h0', hr, emit_status, exit_status, all_stages_succeed, challenge_result,
        EXIT_FAILURE]

/-! ## Challenge resolution -/

theorem challenge_calls (sdk : Sdk) (argv : List String) (stdin : List Char)
    (hargc : 2 ≤ argv.length) (hvalid : sdk.xq_is_valid_config = true)
    (hauth : sdk.xq_svc_authorize.1 = true) :
    ((main sdk argv stdin).trace.filter (fun e => is_code_validation e || is_exchange e)).length
        = 1 ∧
    ((main sdk argv stdin).trace.any is_code_validation = true ↔ pin_read stdin > 0) ∧
    ((main sdk argv stdin).trace.any is_exchange = true ↔ ¬ pin_read stdin > 0) := by
  obtain ⟨v, ⟨a, ae⟩, ⟨cv, cve⟩, ⟨ex, exe⟩, tok, tok', ⟨sub, info, sube⟩, ⟨pool, poole⟩,
    ⟨enc, res, ence⟩, b64, ⟨dec, plain, dece⟩, ⟨rev, reve⟩⟩ := sdk
  simp only at hvalid hauth
  subst hvalid hauth
  have h0 : ¬ argv.length < 2 := by omega
  by_cases hr : pin_read stdin > 0
  · cases cv
    · simp [main, h0, hr, emit_trace, exit_trace, print_err, is_code_validation, is_exchange]
    cases tok
    · simp [main, h0, hr, emit_trace, exit_trace, print_err, is_code_validation, is_exchange]
    cases tok'
    · simp [main, h0, hr, emit_trace, exit_trace, print_err, is_code_validation, is_exchange]
    cases sub
    · simp [main, h0, hr, emit_trace, exit_trace, print_err, is_code_validation, is_exchange]
    cases pool
    · simp [main, h0, hr, emit_trace, exit_trace, print_err, is_code_validation, is_exchange]
    cases enc
    · simp [main, h0, hr, emit_trace, exit_trace, print_err, is_code_validation, is_exchange]
    cases dec
    · simp [main, h0, hr, emit_trace, exit_trace, print_err, is_code_validation, is_exchange]
    cases rev <;>
      simp [main, h0, hr, emit_trace, exit_trace, print_err, is_code_validation, is_exchange]
  · cases ex
    · simp [main, h0, hr, emit_trace, exit_trace, print_err, is_code_validation, is_exchange]
    cases tok
    · simp [main, h0, hr, emit_trace, exit_trace, print_err, is_code_validation, is_exchange]
    cases tok'
    · simp [main, h0, hr, emit_trace, exit_trace, print_err, is_code_validation, is_exchange]
    cases sub
    · simp [main, h0, hr, emit_trace, exit_trace, print_err, is_code_validation, is_exchange]
    cases pool
    · simp [main, h0, hr, emit_trace, exit_trace, print_err, is_code_validation, is_exchange]
    cases enc
    · simp [main, h0, hr, emit_trace, exit_trace, print_err, is_code_validation, is_exchange]
    cases dec
    · simp [main, h0, hr, emit_trace, exit_trace, print_err, is_code_validation, is_exchange]
    cases rev <;>
      simp [main, h0, hr, emit_trace, exit_trace, print_err, is_code_validation, is_exchange]

theorem code_validation_mem (sdk : Sdk) (argv : List String) (stdin : List Char)
    (pin : List Char) (ret : Bool)
    (h : Event.xq_svc_code_validation pin ret ∈ (main sdk argv stdin).trace) :
    pin = pin_string stdin ∧ pin_read stdin > 0 := by
  obtain ⟨v, ⟨a, ae⟩, ⟨cv, cve⟩, ⟨ex, exe⟩, tok, tok', ⟨sub, info, sube⟩, ⟨pool, poole⟩,
    ⟨enc, res, ence⟩, b64, ⟨dec, plain, dece⟩, ⟨rev, reve⟩⟩ := sdk
  by_cases h0 : argv.length < 2
  · simp [main, h0, emit_trace, exit_trace] at h
  cases v
  · simp [main, h0, emit_trace, exit_trace, print_err] at h
  cases a
  · simp [main, h0, emit_trace, exit_trace, print_err] at h
  by_cases hr : pin_read stdin > 0
  · cases cv
    · simp [main, h0, hr, emit_trace, exit_trace, print_err] at h; simp [h, hr]
    cases tok
    · simp [main, h0, hr, emit_trace, exit_trace, print_err] at h; simp [h, hr]
    cases tok'
    · simp [main, h0, hr, emit_trace, exit_trace, print_err] at h; simp [h, hr]
    cases sub
    · simp [main, h0, hr, emit_trace, exit_trace, print_err] at h; simp [h, hr]
    cases pool
    · simp [main, h0, hr, emit_trace, exit_trace, print_err] at h; simp [h, hr]
    cases enc
    · simp [main, h0, hr, emit_trace, exit_trace, print_err] at h; simp [h, hr]
    cases dec
    · simp [main, h0, hr, emit_trace, exit_trace, print_err] at h; simp [h, hr]
    cases rev <;>
      (simp [main, h0, hr, emit_trace, exit_trace, print_err] at h; simp [h, hr])
  · cases ex
    · simp [main, h0, hr, emit_trace, exit_trace, print_err] at h
    cases tok
    · simp [main, h0, hr, emit_trace, exit_trace, print_err] at h
    cases tok'
    · simp [main, h0, hr, emit_trace, exit_trace, print_err] at h
    cases sub
    · simp [main, h0, hr, emit_trace, exit_trace, print_err] at h
    cases pool
    · simp [main, h0, hr, emit_trace, exit_trace, print_err] at h
    cases enc
    · simp [main, h0, hr, emit_trace, exit_trace, print_err] at h
    cases dec
    · simp [main, h0, hr, emit_trace, exit_trace, print_err] at h
    cases rev <;>
      simp [main, h0, hr, emit_trace, exit_trace, print_err] at h

/-- C1 (as amended): after a successful authorize exactly one of `xq_svc_code_validation`
and `xq_svc_exchange` is called; the first if and only if the input cut at its first line
terminator or NUL character is non-empty, the second if and only if it is empty. -/
theorem challenge_branch_exclusive (sdk : Sdk) (argv : List String) (stdin : List Char)
    (hargc : 2 ≤ argv.length) (hvalid : sdk.xq_is_valid_config = true)
    (hauth : sdk.xq_svc_authorize.1 = true) :
    ((main sdk argv stdin).trace.filter (fun e => is_code_validation e || is_exchange e)).length
        = 1 ∧
    ((main sdk argv stdin).trace.any is_code_validation = true ↔ c_line stdin ≠ []) ∧
    ((main sdk argv stdin).trace.any is_exchange = true ↔ c_line stdin = []) := by
  have h := challenge_calls sdk argv stdin hargc hvalid hauth
  rw [pin_read_pos_iff] at h
  refine ⟨h.1, h.2.1, ?_⟩
  rw [h.2.2]
  exact not_not

/-- C1, a run: a typed PIN leads to the validation call alone. -/
theorem challenge_branch_exclusive_witness :
    (2 ≤ argv_example.length ∧ sdk_ok.xq_is_valid_config = true ∧
      sdk_ok.xq_svc_authorize.1 = true) ∧
    (((main sdk_ok argv_example stdin_pin).trace.filter
        (fun e => is_code_validation e || is_exchange e)).length = 1 ∧
     ((main sdk_ok argv_example stdin_pin).trace.any is_code_validation = true ↔
        c_line stdin_pin ≠ []) ∧
     ((main sdk_ok argv_example stdin_pin).trace.any is_exchange = true ↔
        c_line stdin_pin = [])) :=
  ⟨⟨by decide, rfl, rfl⟩,
    challenge_branch_exclusive sdk_ok argv_example stdin_pin (by decide) rfl rfl⟩

/-- C1, as stated, fails on a line that begins with a NUL character: the input trimmed at
its line terminator is not empty, yet `xq_svc_exchange` is called and
`xq_svc_code_validation` is not. -/
theorem challenge_branch_nul_counterexample :
    line_before_terminator stdin_nul_first ≠ [] ∧
    (main sdk_ok argv_example stdin_nul_first).trace.any is_code_validation = false ∧
    (main sdk_ok argv_example stdin_nul_first).trace.any is_exchange = true ∧
    ¬ ((main sdk_ok argv_example stdin_nul_first).trace.any is_code_validation = true ↔
        line_before_terminator stdin_nul_first ≠ []) := by
  decide

/-! ## PIN extraction -/

/-- C7 (as amended): the PIN passed to `xq_svc_code_validation` is the longest prefix of
the line that contains neither a line terminator nor a NUL character, cut to at most 6
characters; it has between 1 and 6 characters, none of them a line terminator or NUL, and
it is the whole line without its terminator when that has at most 6 characters, none of
them NUL. -/
theorem pin_extraction (sdk : Sdk) (argv : List String) (stdin : List Char)
    (pin : List Char) (ret : Bool)
    (h : Event.xq_svc_code_validation pin ret ∈ (main sdk argv stdin).trace) :
    pin = (c_line stdin).take 6 ∧
    1 ≤ pin.length ∧ pin.length ≤ 6 ∧ '\n' ∉ pin ∧ NUL ∉ pin ∧
    ((line_before_terminator stdin).length ≤ 6 → NUL ∉ line_before_terminator stdin →
      pin = line_before_terminator stdin) := by
  obtain ⟨hpin, hpos⟩ := code_validation_mem sdk argv stdin pin ret h
  rw [pin_read_eq] at hpos
  rw [pin_string_eq] at hpin
  subst hpin
  refine ⟨rfl, hpos, ?_, ?_, ?_, ?_⟩
  · simp [List.length_take]
  · exact fun hm => c_line_no_newline stdin (List.mem_of_mem_take hm)
  · exact fun hm => c_line_no_nul stdin (List.mem_of_mem_take hm)
  · intro hlen hnul
    rw [c_line_eq_of_no_nul stdin hnul]
    exact List.take_of_length_le hlen

/-- C7, a run: the six digits typed are the PIN. -/
theorem pin_extraction_witness :
    Event.xq_svc_code_validation ['4', '8', '2', '9', '1', '3'] true ∈
      (main sdk_ok argv_example stdin_pin).trace ∧
    (['4', '8', '2', '9', '1', '3'] = (c_line stdin_pin).take 6 ∧
     1 ≤ ['4', '8', '2', '9', '1', '3'].length ∧ ['4', '8', '2', '9', '1', '3'].length ≤ 6 ∧
     '\n' ∉ ['4', '8', '2', '9', '1', '3'] ∧ NUL ∉ ['4', '8', '2', '9', '1', '3'] ∧
     ((line_before_terminator stdin_pin).length ≤ 6 → NUL ∉ line_before_terminator stdin_pin →
       ['4', '8', '2', '9', '1', '3'] = line_before_terminator stdin_pin)) :=
  ⟨by decide, pin_extraction sdk_ok argv_example stdin_pin _ true (by decide)⟩

/-- C7, as stated, fails on a line with a NUL character inside: the PIN passed is what
precedes the NUL, not the longest prefix without a line terminator. -/
theorem pin_extraction_nul_counterexample :
    Event.xq_svc_code_validation ['4', '8'] true ∈
      (main sdk_ok argv_example stdin_nul_inside).trace ∧
    (line_before_terminator stdin_nul_inside).take 6 = ['4', '8', NUL, '9', '1'] ∧
    ¬ (∀ pin ret, Event.xq_svc_code_validation pin ret ∈
        (main sdk_ok argv_example stdin_nul_inside).trace →
        pin = (line_before_terminator stdin_nul_inside).take 6) := by
  refine ⟨by decide, by decide, fun hall => ?_⟩
  have h := hall ['4', '8'] true (by decide)
  revert h
  decide

/-! ## Release of the configuration and of the pool -/

/-- C5: on every path on which `xq_init` has run, `xq_destroy_config` is called exactly
once and is the last thing the program does; when `xq_init_pool` has succeeded,
`xq_destroy_pool` is called exactly once and no later call is passed the pool; when it has
not, `xq_destroy_pool` is not called. -/
theorem config_and_pool_release (sdk : Sdk) (argv : List String) (stdin : List Char)
    (hargc : 2 ≤ argv.length) :
    ((main sdk argv stdin).trace.countP is_destroy_config = 1 ∧
      (main sdk argv stdin).trace.getLast? = some .xq_destroy_config) ∧
    ((main sdk argv stdin).trace.any is_pool_created = true →
      (main sdk argv stdin).trace.countP is_destroy_pool = 1 ∧
      ∀ e ∈ after_first is_destroy_pool (main sdk argv stdin).trace, uses_pool e = false) ∧
    ((main sdk argv stdin).trace.any is_pool_created = false →
      (main sdk argv stdin).trace.countP is_destroy_pool = 0) := by
  obtain ⟨v, ⟨a, ae⟩, ⟨cv, cve⟩, ⟨ex, exe⟩, tok, tok', ⟨sub, info, sube⟩, ⟨pool, poole⟩,
    ⟨enc, res, ence⟩, b64, ⟨dec, plain, dece⟩, ⟨rev, reve⟩⟩ := sdk
  have h0 : ¬ argv.length < 2 := by omega
  cases v
  · simp [main, h0, emit_trace, exit_trace, print_err, is_pool_created, is_destroy_config,
      is_destroy_pool, after_first, uses_pool]
  cases a
  · simp [main, h0, emit_trace, exit_trace, print_err, is_pool_created, is_destroy_config,
      is_destroy_pool, after_first, uses_pool]
  by_cases hr : pin_read stdin > 0
  · cases cv
    · simp [main, h0, hr, emit_trace, exit_trace, print_err, is_pool_created, is_destroy_config,
        is_destroy_pool, after_first, uses_pool]
    cases tok
    · simp [main, h0, hr, emit_trace, exit_trace, print_err, is_pool_created, is_destroy_config,
        is_destroy_pool, after_first, uses_pool]
    cases tok'
    · simp [main, h0, hr, emit_trace, exit_trace, print_err, is_pool_created, is_destroy_config,
        is_destroy_pool, after_first, uses_pool]
    cases sub
    · simp [main, h0, hr, emit_trace, exit_trace, print_err, is_pool_created, is_destroy_config,
        is_destroy_pool, after_first, uses_pool]
    cases pool
    · simp [main, h0, hr, emit_trace, exit_trace, print_err, is_pool_created, is_destroy_config,
        is_destroy_pool, after_first, uses_pool]
    cases enc
    · simp [main, h0, hr, emit_trace, exit_trace, print_err, is_pool_created, is_destroy_config,
        is_destroy_pool, after_first, uses_pool]
    cases dec
    · simp [main, h0, hr, emit_trace, exit_trace, print_err, is_pool_created, is_destroy_config,
        is_destroy_pool, after_first, uses_pool]
    cases rev <;>
      simp [main, h0, hr, emit_trace, exit_trace, print_err, is_pool_created, is_destroy_config,
        is_destroy_pool, after_first, uses_pool]
  · cases ex
    · simp [main, h0, hr, emit_trace, exit_trace, print_err, is_pool_created, is_destroy_config,
        is_destroy_pool, after_first, uses_pool]
    cases tok
    · simp [main, h0, hr, emit_trace, exit_trace, print_err, is_pool_created, is_destroy_config,
        is_destroy_pool, after_first, uses_pool]
    cases tok'
    · simp [main, h0, hr, emit_trace, exit_trace, print_err, is_pool_created, is_destroy_config,
        is_destroy_pool, after_first, uses_pool]
    cases sub
    · simp [main, h0, hr, emit_trace, exit_trace, print_err, is_pool_created, is_destroy_config,
        is_destroy_pool, after_first, uses_pool]
    cases pool
    · simp [main, h0, hr, emit_trace, exit_trace, print_err, is_pool_created, is_destroy_config,
        is_destroy_pool, after_first, uses_pool]
    cases enc
    · simp [main, h0, hr, emit_trace, exit_trace, print_err, is_pool_created, is_destroy_config,
        is_destroy_pool, after_first, uses_pool]
    cases dec
    · simp [main, h0, hr, emit_trace, exit_trace, print_err, is_pool_created, is_destroy_config,
        is_destroy_pool, after_first, uses_pool]
    cases rev <;>
      simp [main, h0, hr, emit_trace, exit_trace, print_err, is_pool_created, is_destroy_config,
        is_destroy_pool, after_first, uses_pool]

/-- C5, a run: the flow that succeeds throughout. -/
theorem config_and_pool_release_witness :
    2 ≤ argv_example.length ∧
    (((main sdk_ok argv_example stdin_pin).trace.countP is_destroy_config = 1 ∧
      (main sdk_ok argv_example stdin_pin).trace.getLast? = some .xq_destroy_config) ∧
    ((main sdk_ok argv_example stdin_pin).trace.any is_pool_created = true →
      (main sdk_ok argv_example stdin_pin).trace.countP is_destroy_pool = 1 ∧
      ∀ e ∈ after_first is_destroy_pool (main sdk_ok argv_example stdin_pin).trace,
        uses_pool e = false) ∧
    ((main sdk_ok argv_example stdin_pin).trace.any is_pool_created = false →
      (main sdk_ok argv_example stdin_pin).trace.countP is_destroy_pool = 0)) :=
  ⟨by decide, config_and_pool_release sdk_ok argv_example stdin_pin (by decide)⟩

/-! ## Sequencing of the stages -/

theorem cut_dedup_stage_order (b1 b2 b3 b4 b5 b6 b7 b8 b9 b10 : Bool) :
    (cut_at_first_failure [(.init, b1), (.authorize, b2), (.challenge, b3), (.credential, b4),
      (.credential, b5), (.getSubscriber, b6), (.createPool, b7), (.encrypt, b8),
      (.decrypt, b9), (.revoke, b10)]).dedup <+: stage_order := by
  cases b1
  · simp only [cut_at_first_failure, Bool.false_eq_true, if_false, if_true]; decide
  cases b2
  · simp only [cut_at_first_failure, Bool.false_eq_true, if_false, if_true]; decide
  cases b3
  · simp only [cut_at_first_failure, Bool.false_eq_true, if_false, if_true]; decide
  cases b4
  · simp only [cut_at_first_failure, Bool.false_eq_true, if_false, if_true]; decide
  cases b5
  · simp only [cut_at_first_failure, Bool.false_eq_true, if_false, if_true]; decide
  cases b6
  · simp only [cut_at_first_failure, Bool.false_eq_true, if_false, if_true]; decide
  cases b7
  · simp only [cut_at_first_failure, Bool.false_eq_true, if_false, if_true]; decide
  cases b8
  · simp only [cut_at_first_failure, Bool.false_eq_true, if_false, if_true]; decide
  cases b9
  · simp only [cut_at_first_failure, Bool.false_eq_true, if_false, if_true]; decide
  cases b10 <;>
    (simp only [cut_at_first_failure, Bool.false_eq_true, if_false, if_true]; decide)

theorem stage_calls_cases (sdk : Sdk) (argv : List String) (stdin : List Char) :
    (stage_calls (main sdk argv stdin).trace =
      if argv.length < 2 then [] else cut_at_first_failure (stage_results sdk stdin)) ∧
    (stage_calls (main sdk argv stdin).trace <+: stage_call_order) ∧
    (¬ argv.length < 2 ∧ sdk.xq_is_valid_config = false →
      (main sdk argv stdin).trace =
        [.xq_init argv[1]?, .xq_is_valid_config false, .xq_destroy_config]) ∧
    (Stage.createPool ∈ stage_calls (main sdk argv stdin).trace ∨
      Stage.encrypt ∈ stage_calls (main sdk argv stdin).trace →
      sdk.xq_is_valid_config = true ∧ authorization_succeeded sdk stdin) ∧
    (Stage.encrypt ∈ stage_calls (main sdk argv stdin).trace → sdk.xq_init_pool.1 = true) ∧
    (Stage.decrypt ∈ stage_calls (main sdk argv stdin).trace ∨
      Stage.revoke ∈ stage_calls (main sdk argv stdin).trace →
      sdk.xq_encrypt_and_store_token.1 = true) := by
  obtain ⟨v, ⟨a, ae⟩, ⟨cv, cve⟩, ⟨ex, exe⟩, tok, tok', ⟨sub, info, sube⟩, ⟨pool, poole⟩,
    ⟨enc, res, ence⟩, b64, ⟨dec, plain, dece⟩, ⟨rev, reve⟩⟩ := sdk
  by_cases h0 : argv.length < 2
  · simp [main, h0, emit_trace, exit_trace, print_err, stage_calls, stageOf, stage_call_order,
      stage_results, cut_at_first_failure, challenge_result, authorization_succeeded]
  cases v
  · simp [main, h0, emit_trace, exit_trace, print_err, stage_calls, stageOf, stage_call_order,
      stage_results, cut_at_first_failure, challenge_result, authorization_succeeded]
  cases a
  · simp [main, h0, emit_trace, exit_trace, print_err, stage_calls, stageOf, stage_call_order,
      stage_results, cut_at_first_failure, challenge_result, authorization_succeeded]
  by_cases hr : pin_read stdin > 0
  · cases cv
    · simp [main, h0, hr, emit_trace, exit_trace, print_err, stage_calls, stageOf,
        stage_call_order, stage_results, cut_at_first_failure, challenge_result,
        authorization_succeeded]
    cases tok
    · simp [main, h0, hr, emit_trace, exit_trace, print_err, stage_calls, stageOf,
        stage_call_order, stage_results, cut_at_first_failure, challenge_result,
        authorization_succeeded]
    cases tok'
    · simp [main, h0, hr, emit_trace, exit_trace, print_err, stage_calls, stageOf,
        stage_call_order, stage_results, cut_at_first_failure, challenge_result,
        authorization_succeeded]
    cases sub
    · simp [main, h0, hr, emit_trace, exit_trace, print_err, stage_calls, stageOf,
        stage_call_order, stage_results, cut_at_first_failure, challenge_result,
        authorization_succeeded]
    cases pool
    · simp [main, h0, hr, emit_trace, exit_trace, print_err, stage_calls, stageOf,
        stage_call_order, stage_results, cut_at_first_failure, challenge_result,
        authorization_succeeded]
    cases enc
    · simp [main, h0, hr, emit_trace, exit_trace, print_err, stage_calls, stageOf,
        stage_call_order, stage_results, cut_at_first_failure, challenge_result,
        authorization_succeeded]
    cases dec
    · simp [main, h0, hr, emit_trace, exit_trace, print_err, stage_calls, stageOf,
        stage_call_order, stage_results, cut_at_first_failure, challenge_result,
        authorization_succeeded]
    cases rev <;>
      simp [main, h0, hr, emit_trace, exit_trace, print_err, stage_calls, stageOf,
        stage_call_order, stage_results, cut_at_first_failure, challenge_result,
        authorization_succeeded]
  · cases ex
    · simp [main, h0, hr, emit_trace, exit_trace, print_err, stage_calls, stageOf,
        stage_call_order, stage_results, cut_at_first_failure, challenge_result,
        authorization_succeeded]
    cases tok
    · simp [main, h0, hr, emit_trace, exit_trace, print_err, stage_calls, stageOf,
        stage_call_order, stage_results, cut_at_first_failure, challenge_result,
        authorization_succeeded]
    cases tok'
    · simp [main, h0, hr, emit_trace, exit_trace, print_err, stage_calls, stageOf,
        stage_call_order, stage_results, cut_at_first_failure, challenge_result,
        authorization_succeeded]
    cases sub
    · simp [main, h0, hr, emit_trace, exit_trace, print_err, stage_calls, stageOf,
        stage_call_order, stage_results, cut_at_first_failure, challenge_result,
        authorization_succeeded]
    cases pool
    · simp [main, h0, hr, emit_trace, exit_trace, print_err, stage_calls, stageOf,
        stage_call_order, stage_results, cut_at_first_failure, challenge_result,
        authorization_succeeded]
    cases enc
    · simp [main, h0, hr, emit_trace, exit_trace, print_err, stage_calls, stageOf,
        stage_call_order, stage_results, cut_at_first_failure, challenge_result,
        authorization_succeeded]
    cases dec
    · simp [main, h0, hr, emit_trace, exit_trace, print_err, stage_calls, stageOf,
        stage_call_order, stage_results, cut_at_first_failure, challenge_result,
        authorization_succeeded]
    cases rev <;>
      simp [main, h0, hr, emit_trace, exit_trace, print_err, stage_calls, stageOf,
        stage_call_order, stage_results, cut_at_first_failure, challenge_result,
        authorization_succeeded]

/-- C6: the stage calls of a run are the fixed order init, authorize, validateCode or
exchange, access-credential read (made twice), getSubscriber, createPool, encrypt, decrypt,
revoke, cut at the first stage that fails, hence a prefix of that order; on an invalid
configuration nothing is called but `xq_init`, the validity check and
`xq_destroy_config`; createPool and encrypt are called only after authorization has fully
succeeded, encrypt only after createPool has succeeded, decrypt and revoke only after
encrypt has succeeded. -/
theorem stage_sequence (sdk : Sdk) (argv : List String) (stdin : List Char) :
    (stage_calls (main sdk argv stdin).trace =
      if argv.length < 2 then [] else cut_at_first_failure (stage_results sdk stdin)) ∧
    (stage_calls (main sdk argv stdin).trace <+: stage_call_order) ∧
    ((stage_calls (main sdk argv stdin).trace).dedup <+: stage_order) ∧
    (¬ argv.length < 2 ∧ sdk.xq_is_valid_config = false →
      (main sdk argv stdin).trace =
        [.xq_init argv[1]?, .xq_is_valid_config false, .xq_destroy_config]) ∧
    (Stage.createPool ∈ stage_calls (main sdk argv stdin).trace ∨
      Stage.encrypt ∈ stage_calls (main sdk argv stdin).trace →
      sdk.xq_is_valid_config = true ∧ authorization_succeeded sdk stdin) ∧
    (Stage.encrypt ∈ stage_calls (main sdk argv stdin).trace → sdk.xq_init_pool.1 = true) ∧
    (Stage.decrypt ∈ stage_calls (main sdk argv stdin).trace ∨
      Stage.revoke ∈ stage_calls (main sdk argv stdin).trace →
      sdk.xq_encrypt_and_store_token.1 = true) := by
  obtain ⟨hcut, hcalls, hinvalid, hpool, hencrypt, hdecrypt⟩ := stage_calls_cases sdk argv stdin
  refine ⟨hcut, hcalls, ?_, hinvalid, hpool, hencrypt, hdecrypt⟩
  rw [hcut]
  split
  · decide
  · exact cut_dedup_stage_order _ _ _ _ _ _ _ _ _ _

/-! ## Identity, recipient and token -/

/-- C8 (as amended): in every run that reaches encryption, the identity passed to
authorize is the second command-line argument, and the recipient passed to encrypt is the
`mailOrPhone` of the subscriber record that getSubscriber returned. -/
theorem identity_and_recipient (sdk : Sdk) (argv : List String) (stdin : List Char)
    (h : Stage.encrypt ∈ stage_calls (main sdk argv stdin).trace) :
    authorize_identities (main sdk argv stdin).trace = [argv[2]?] ∧
    encrypt_recipients (main sdk argv stdin).trace =
      [sdk.xq_svc_get_subscriber.2.1.mailOrPhone] := by
  obtain ⟨v, ⟨a, ae⟩, ⟨cv, cve⟩, ⟨ex, exe⟩, tok, tok', ⟨sub, info, sube⟩, ⟨pool, poole⟩,
    ⟨enc, res, ence⟩, b64, ⟨dec, plain, dece⟩, ⟨rev, reve⟩⟩ := sdk
  by_cases h0 : argv.length < 2
  · simp [main, h0, emit_trace, exit_trace, stage_calls, stageOf] at h
  cases v
  · simp [main, h0, emit_trace, exit_trace, print_err, stage_calls, stageOf,
      authorize_identities, encrypt_recipients] at h ⊢
  cases a
  · simp [main, h0, emit_trace, exit_trace, print_err, stage_calls, stageOf,
      authorize_identities, encrypt_recipients] at h ⊢
  by_cases hr : pin_read stdin > 0
  · cases cv
    · simp [main, h0, hr, emit_trace, exit_trace, print_err, stage_calls, stageOf,
        authorize_identities, encrypt_recipients] at h ⊢
    cases tok
    · simp [main, h0, hr, emit_trace, exit_trace, print_err, stage_calls, stageOf,
        authorize_identities, encrypt_recipients] at h ⊢
    cases tok'
    · simp [main, h0, hr, emit_trace, exit_trace, print_err, stage_calls, stageOf,
        authorize_identities, encrypt_recipients] at h ⊢
    cases sub
    · simp [main, h0, hr, emit_trace, exit_trace, print_err, stage_calls, stageOf,
        authorize_identities, encrypt_recipients] at h ⊢
    cases pool
    · simp [main, h0, hr, emit_trace, exit_trace, print_err, stage_calls, stageOf,
        authorize_identities, encrypt_recipients] at h ⊢
    cases enc
    · simp [main, h0, hr, emit_trace, exit_trace, print_err, stage_calls, stageOf,
        authorize_identities, encrypt_recipients] at h ⊢
    cases dec
    · simp [main, h0, hr, emit_trace, exit_trace, print_err, stage_calls, stageOf,
        authorize_identities, encrypt_recipients] at h ⊢
    cases rev <;>
      simp [main, h0, hr, emit_trace, exit_trace, print_err, stage_calls, stageOf,
        authorize_identities, encrypt_recipients] at h ⊢
  · cases ex
    · simp [main, h0, hr, emit_trace, exit_trace, print_err, stage_calls, stageOf,
        authorize_identities, encrypt_recipients] at h ⊢
    cases tok
    · simp [main, h0, hr, emit_trace, exit_trace, print_err, stage_calls, stageOf,
        authorize_identities, encrypt_recipients] at h ⊢
    cases tok'
    · simp [main, h0, hr, emit_trace, exit_trace, print_err, stage_calls, stageOf,
        authorize_identities, encrypt_recipients] at h ⊢
    cases sub
    · simp [main, h0, hr, emit_trace, exit_trace, print_err, stage_calls, stageOf,
        authorize_identities, encrypt_recipients] at h ⊢
    cases pool
    · simp [main, h0, hr, emit_trace, exit_trace, print_err, stage_calls, stageOf,
        authorize_identities, encrypt_recipients] at h ⊢
    cases enc
    · simp [main, h0, hr, emit_trace, exit_trace, print_err, stage_calls, stageOf,
        authorize_identities, encrypt_recipients] at h ⊢
    cases dec
    · simp [main, h0, hr, emit_trace, exit_trace, print_err, stage_calls, stageOf,
        authorize_identities, encrypt_recipients] at h ⊢
    cases rev <;>
      simp [main, h0, hr, emit_trace, exit_trace, print_err, stage_calls, stageOf,
        authorize_identities, encrypt_recipients] at h ⊢

/-- C8, a run: the flow that succeeds throughout. -/
theorem identity_and_recipient_witness :
    Stage.encrypt ∈ stage_calls (main sdk_ok argv_example stdin_pin).trace ∧
    (authorize_identities (main sdk_ok argv_example stdin_pin).trace = [argv_example[2]?] ∧
     encrypt_recipients (main sdk_ok argv_example stdin_pin).trace =
       [sdk_ok.xq_svc_get_subscriber.2.1.mailOrPhone]) :=
  ⟨by decide, identity_and_recipient sdk_ok argv_example stdin_pin (by decide)⟩

/-- C8, as stated, fails when the subscriber record holds another address than the one on
the command line: the recipient passed to encrypt is the address of the record. -/
theorem recipient_counterexample :
    Stage.encrypt ∈ stage_calls (main sdk_other_address argv_example stdin_pin).trace ∧
    argv_example[2]? = some "user@example.com" ∧
    encrypt_recipients (main sdk_other_address argv_example stdin_pin).trace =
      [some "+15550100"] ∧
    ¬ (∀ r ∈ encrypt_recipients (main sdk_other_address argv_example stdin_pin).trace,
        r = argv_example[2]?) := by
  decide

/-- C9: `xq_decrypt_with_token` is called only after a successful encrypt, and then with
exactly the data, the length and the token of the payload that encrypt returned;
`xq_svc_remove_key` is called only after a successful decrypt, and then with that same
token. -/
theorem payload_token_binding (sdk : Sdk) (argv : List String) (stdin : List Char) :
    (decrypt_inputs (main sdk argv stdin).trace =
      if (main sdk argv stdin).trace.any is_encrypt_success then
        [(sdk.xq_encrypt_and_store_token.2.1.data, sdk.xq_encrypt_and_store_token.2.1.length,
          sdk.xq_encrypt_and_store_token.2.1.token_or_key)]
      else []) ∧
    (revoke_tokens (main sdk argv stdin).trace =
      if (main sdk argv stdin).trace.any is_decrypt_success then
        [sdk.xq_encrypt_and_store_token.2.1.token_or_key]
      else []) ∧
    ((main sdk argv stdin).trace.any is_decrypt_success = true →
      (main sdk argv stdin).trace.any is_encrypt_success = true) := by
  obtain ⟨v, ⟨a, ae⟩, ⟨cv, cve⟩, ⟨ex, exe⟩, tok, tok', ⟨sub, info, sube⟩, ⟨pool, poole⟩,
    ⟨enc, res, ence⟩, b64, ⟨dec, plain, dece⟩, ⟨rev, reve⟩⟩ := sdk
  by_cases h0 : argv.length < 2
  · simp [main, h0, emit_trace, exit_trace, print_err, decrypt_inputs, revoke_tokens,
      is_encrypt_success, is_decrypt_success]
  cases v
  · simp [main, h0, emit_trace, exit_trace, print_err, decrypt_inputs, revoke_tokens,
      is_encrypt_success, is_decrypt_success]
  cases a
  · simp [main, h0, emit_trace, exit_trace, print_err, decrypt_inputs, revoke_tokens,
      is_encrypt_success, is_decrypt_success]
  by_cases hr : pin_read stdin > 0
  · cases cv
    · simp [main, h0, hr, emit_trace, exit_trace, print_err, decrypt_inputs, revoke_tokens,
        is_encrypt_success, is_decrypt_success]
    cases tok
    · simp [main, h0, hr, emit_trace, exit_trace, print_err, decrypt_inputs, revoke_tokens,
        is_encrypt_success, is_decrypt_success]
    cases tok'
    · simp [main, h0, hr, emit_trace, exit_trace, print_err, decrypt_inputs, revoke_tokens,
        is_encrypt_success, is_decrypt_success]
    cases sub
    · simp [main, h0, hr, emit_trace, exit_trace, print_err, decrypt_inputs, revoke_tokens,
        is_encrypt_success, is_decrypt_success]
    cases pool
    · simp [main, h0, hr, emit_trace, exit_trace, print_err, decrypt_inputs, revoke_tokens,
        is_encrypt_success, is_decrypt_success]
    cases enc
    · simp [main, h0, hr, emit_trace, exit_trace, print_err, decrypt_inputs, revoke_tokens,
        is_encrypt_success, is_decrypt_success]
    cases dec
    · simp [main, h0, hr, emit_trace, exit_trace, print_err, decrypt_inputs, revoke_tokens,
        is_encrypt_success, is_decrypt_success]
    cases rev <;>
      simp [main, h0, hr, emit_trace, exit_trace, print_err, decrypt_inputs, revoke_tokens,
        is_encrypt_success, is_decrypt_success]
  · cases ex
    · simp [main, h0, hr, emit_trace, exit_trace, print_err, decrypt_inputs, revoke_tokens,
        is_encrypt_success, is_decrypt_success]
    cases tok
    · simp [main, h0, hr, emit_trace, exit_trace, print_err, decrypt_inputs, revoke_tokens,
        is_encrypt_success, is_decrypt_success]
    cases tok'
    · simp [main, h0, hr, emit_trace, exit_trace, print_err, decrypt_inputs, revoke_tokens,
        is_encrypt_success, is_decrypt_success]
    cases sub
    · simp [main, h0, hr, emit_trace, exit_trace, print_err, decrypt_inputs, revoke_tokens,
        is_encrypt_success, is_decrypt_success]
    cases pool
    · simp [main, h0, hr, emit_trace, exit_trace, print_err, decrypt_inputs, revoke_tokens,
        is_encrypt_success, is_decrypt_success]
    cases enc
    · simp [main, h0, hr, emit_trace, exit_trace, print_err, decrypt_inputs, revoke_tokens,
        is_encrypt_success, is_decrypt_success]
    cases dec
    · simp [main, h0, hr, emit_trace, exit_trace, print_err, decrypt_inputs, revoke_tokens,
        is_encrypt_success, is_decrypt_success]
    cases rev <;>
      simp [main, h0, hr, emit_trace, exit_trace, print_err, decrypt_inputs, revoke_tokens,
        is_encrypt_success, is_decrypt_success]

/-! ## The command line -/

/-- C10: started with a configuration path and no identity, on a valid configuration,
`main` prints no line of the usage message and goes on to call `xq_svc_authorize` with a
null identity. -/
theorem missing_identity (sdk : Sdk) (argv : List String) (stdin : List Char)
    (hargc : argv.length = 2) (hvalid : sdk.xq_is_valid_config = true) :
    argv[2]? = none ∧
    (∀ e ∈ usage_message, e ∉ (main sdk argv stdin).trace) ∧
    authorize_identities (main sdk argv stdin).trace = [none] ∧
    [.xq_init argv[1]?, .xq_is_valid_config true,
      .xq_svc_authorize none sdk.xq_svc_authorize.1] <+: (main sdk argv stdin).trace := by
  obtain ⟨v, ⟨a, ae⟩, ⟨cv, cve⟩, ⟨ex, exe⟩, tok, tok', ⟨sub, info, sube⟩, ⟨pool, poole⟩,
    ⟨enc, res, ence⟩, b64, ⟨dec, plain, dece⟩, ⟨rev, reve⟩⟩ := sdk
  simp only at hvalid
  subst hvalid
  obtain ⟨path, program, rfl⟩ := List.length_eq_two.mp hargc
  have h0 : ¬ [path, program].length < 2 := by simp
  cases a
  · simp [main, emit_trace, exit_trace, print_err, usage_message, authorize_identities]
  by_cases hr : pin_read stdin > 0
  · cases cv
    · simp [main, hr, emit_trace, exit_trace, print_err, usage_message, authorize_identities]
    cases tok
    · simp [main, hr, emit_trace, exit_trace, print_err, usage_message, authorize_identities]
    cases tok'
    · simp [main, hr, emit_trace, exit_trace, print_err, usage_message, authorize_identities]
    cases sub
    · simp [main, hr, emit_trace, exit_trace, print_err, usage_message, authorize_identities]
    cases pool
    · simp [main, hr, emit_trace, exit_trace, print_err, usage_message, authorize_identities]
    cases enc
    · simp [main, hr, emit_trace, exit_trace, print_err, usage_message, authorize_identities]
    cases dec
    · simp [main, hr, emit_trace, exit_trace, print_err, usage_message, authorize_identities]
    cases rev <;>
      simp [main, hr, emit_trace, exit_trace, print_err, usage_message, authorize_identities]
  · cases ex
    · simp [main, hr, emit_trace, exit_trace, print_err, usage_message, authorize_identities]
    cases tok
    · simp [main, hr, emit_trace, exit_trace, print_err, usage_message, authorize_identities]
    cases tok'
    · simp [main, hr, emit_trace, exit_trace, print_err, usage_message, authorize_identities]
    cases sub
    · simp [main, hr, emit_trace, exit_trace, print_err, usage_message, authorize_identities]
    cases pool
    · simp [main, hr, emit_trace, exit_trace, print_err, usage_message, authorize_identities]
    cases enc
    · simp [main, hr, emit_trace, exit_trace, print_err, usage_message, authorize_identities]
    cases dec
    · simp [main, hr, emit_trace, exit_trace, print_err, usage_message, authorize_identities]
    cases rev <;>
      simp [main, hr, emit_trace, exit_trace, print_err, usage_message, authorize_identities]

/-- C10, a run: the flow that succeeds throughout, without an identity. -/
theorem missing_identity_witness :
    (argv_no_identity.length = 2 ∧ sdk_ok.xq_is_valid_config = true) ∧
    (argv_no_identity[2]? = none ∧
     (∀ e ∈ usage_message, e ∉ (main sdk_ok argv_no_identity stdin_pin).trace) ∧
     authorize_identities (main sdk_ok argv_no_identity stdin_pin).trace = [none] ∧
     [.xq_init argv_no_identity[1]?, .xq_is_valid_config true,
       .xq_svc_authorize none sdk_ok.xq_svc_authorize.1] <+:
       (main sdk_ok argv_no_identity stdin_pin).trace) :=
  ⟨⟨rfl, rfl⟩, missing_identity sdk_ok argv_no_identity stdin_pin rfl rfl⟩

/-! ## Error reporting -/

/-- Every failing remote call but `xq_svc_get_subscriber` is followed by a write of its
error record to standard error. -/
theorem failure_reported_except_subscriber (sdk : Sdk) (argv : List String)
    (stdin : List Char) :
    (Event.xq_svc_authorize argv[2]? false ∈ (main sdk argv stdin).trace →
      print_err sdk.xq_svc_authorize.2 ∈ (main sdk argv stdin).trace) ∧
    (Event.xq_svc_code_validation (pin_string stdin) false ∈ (main sdk argv stdin).trace →
      print_err sdk.xq_svc_code_validation.2 ∈ (main sdk argv stdin).trace) ∧
    (Event.xq_svc_exchange false ∈ (main sdk argv stdin).trace →
      print_err sdk.xq_svc_exchange.2 ∈ (main sdk argv stdin).trace) ∧
    (Event.xq_init_pool 256 false ∈ (main sdk argv stdin).trace →
      print_err sdk.xq_init_pool.2 ∈ (main sdk argv stdin).trace) ∧
    ((main sdk argv stdin).trace.any is_encrypt_failure = true →
      print_err sdk.xq_encrypt_and_store_token.2.2 ∈ (main sdk argv stdin).trace) ∧
    ((main sdk argv stdin).trace.any is_decrypt_failure = true →
      print_err sdk.xq_decrypt_with_token.2.2 ∈ (main sdk argv stdin).trace) ∧
    ((main sdk argv stdin).trace.any is_revoke_failure = true →
      print_err sdk.xq_svc_remove_key.2 ∈ (main sdk argv stdin).trace) := by
  obtain ⟨v, ⟨a, ae⟩, ⟨cv, cve⟩, ⟨ex, exe⟩, tok, tok', ⟨sub, info, sube⟩, ⟨pool, poole⟩,
    ⟨enc, res, ence⟩, b64, ⟨dec, plain, dece⟩, ⟨rev, reve⟩⟩ := sdk
  by_cases h0 : argv.length < 2
  · simp [main, h0, emit_trace, exit_trace, print_err, is_encrypt_failure, is_decrypt_failure,
      is_revoke_failure]
  cases v
  · simp [main, h0, emit_trace, exit_trace, print_err, is_encrypt_failure, is_decrypt_failure,
      is_revoke_failure]
  cases a
  · simp [main, h0, emit_trace, exit_trace, print_err, is_encrypt_failure, is_decrypt_failure,
      is_revoke_failure]
  by_cases hr : pin_read stdin > 0
  · cases cv
    · simp [main, h0, hr, emit_trace, exit_trace, print_err, is_encrypt_failure,
        is_decrypt_failure, is_revoke_failure]
    cases tok
    · simp [main, h0, hr, emit_trace, exit_trace, print_err, is_encrypt_failure,
        is_decrypt_failure, is_revoke_failure]
    cases tok'
    · simp [main, h0, hr, emit_trace, exit_trace, print_err, is_encrypt_failure,
        is_decrypt_failure, is_revoke_failure]
    cases sub
    · simp [main, h0, hr, emit_trace, exit_trace, print_err, is_encrypt_failure,
        is_decrypt_failure, is_revoke_failure]
    cases pool
    · simp [main, h0, hr, emit_trace, exit_trace, print_err, is_encrypt_failure,
        is_decrypt_failure, is_revoke_failure]
    cases enc
    · simp [main, h0, hr, emit_trace, exit_trace, print_err, is_encrypt_failure,
        is_decrypt_failure, is_revoke_failure]
    cases dec
    · simp [main, h0, hr, emit_trace, exit_trace, print_err, is_encrypt_failure,
        is_decrypt_failure, is_revoke_failure]
    cases rev <;>
      simp [main, h0, hr, emit_trace, exit_trace, print_err, is_encrypt_failure,
        is_decrypt_failure, is_revoke_failure]
  · cases ex
    · simp [main, h0, hr, emit_trace, exit_trace, print_err, is_encrypt_failure,
        is_decrypt_failure, is_revoke_failure]
    cases tok
    · simp [main, h0, hr, emit_trace, exit_trace, print_err, is_encrypt_failure,
        is_decrypt_failure, is_revoke_failure]
    cases tok'
    · simp [main, h0, hr, emit_trace, exit_trace, print_err, is_encrypt_failure,
        is_decrypt_failure, is_revoke_failure]
    cases sub
    · simp [main, h0, hr, emit_trace, exit_trace, print_err, is_encrypt_failure,
        is_decrypt_failure, is_revoke_failure]
    cases pool
    · simp [main, h0, hr, emit_trace, exit_trace, print_err, is_encrypt_failure,
        is_decrypt_failure, is_revoke_failure]
    cases enc
    · simp [main, h0, hr, emit_trace, exit_trace, print_err, is_encrypt_failure,
        is_decrypt_failure, is_revoke_failure]
    cases dec
    · simp [main, h0, hr, emit_trace, exit_trace, print_err, is_encrypt_failure,
        is_decrypt_failure, is_revoke_failure]
    cases rev <;>
      simp [main, h0, hr, emit_trace, exit_trace, print_err, is_encrypt_failure,
        is_decrypt_failure, is_revoke_failure]

/-- C3, the failing run: `xq_svc_get_subscriber` reports failure and `main` exits with
`EXIT_FAILURE` without having written anything to standard error. -/
theorem get_subscriber_failure_unreported :
    Event.xq_svc_get_subscriber false ∈
      (main sdk_subscriber_fails argv_example stdin_pin).trace ∧
    (main sdk_subscriber_fails argv_example stdin_pin).trace.any writes_stderr = false ∧
    (main sdk_subscriber_fails argv_example stdin_pin).status = EXIT_FAILURE := by
  decide

/-! ## Release of the payloads -/

/-- No payload is released twice, and a run that ends with status 0 releases each of the
three payloads once. -/
theorem payload_release_counts (sdk : Sdk) (argv : List String) (stdin : List Char)
    (v : PayloadVar) :
    (main sdk argv stdin).trace.countP (is_destroy_payload v) ≤ 1 ∧
    ((main sdk argv stdin).status = 0 →
      (main sdk argv stdin).trace.countP (is_destroy_payload v) = 1) := by
  obtain ⟨v, ⟨a, ae⟩, ⟨cv, cve⟩, ⟨ex, exe⟩, tok, tok', ⟨sub, info, sube⟩, ⟨pool, poole⟩,
    ⟨enc, res, ence⟩, b64, ⟨dec, plain, dece⟩, ⟨rev, reve⟩⟩ := sdk
  by_cases h0 : argv.length < 2
  · cases v <;> simp [main, h0, emit_trace, exit_trace, print_err, emit_status, exit_status,
      EXIT_FAILURE, is_destroy_payload]
  cases v
  · cases v <;> simp [main, h0, emit_trace, exit_trace, print_err, emit_status, exit_status,
      EXIT_FAILURE, is_destroy_payload]
  cases a
  · cases v <;> simp [main, h0, emit_trace, exit_trace, print_err, emit_status, exit_status,
      EXIT_FAILURE, is_destroy_payload]
  by_cases hr : pin_read stdin > 0
  · cases cv
    · cases v <;> simp [main, h0, hr, emit_trace, exit_trace, print_err, emit_status,
        exit_status, EXIT_FAILURE, is_destroy_payload]
    cases tok
    · cases v <;> simp [main, h0, hr, emit_trace, exit_trace, print_err, emit_status,
        exit_status, EXIT_FAILURE, is_destroy_payload]
    cases tok'
    · cases v <;> simp [main, h0, hr, emit_trace, exit_trace, print_err, emit_status,
        exit_status, EXIT_FAILURE, is_destroy_payload]
    cases sub
    · cases v <;> simp [main, h0, hr, emit_trace, exit_trace, print_err, emit_status,
        exit_status, EXIT_FAILURE, is_destroy_payload]
    cases pool
    · cases v <;> simp [main, h0, hr, emit_trace, exit_trace, print_err, emit_status,
        exit_status, EXIT_FAILURE, is_destroy_payload]
    cases enc
    · cases v <;> simp [main, h0, hr, emit_trace, exit_trace, print_err, emit_status,
        exit_status, EXIT_FAILURE, is_destroy_payload]
    cases dec
    · cases v <;> simp [main, h0, hr, emit_trace, exit_trace, print_err, emit_status,
        exit_status, EXIT_FAILURE, is_destroy_payload]
    cases rev <;>
      (cases v <;> simp [main, h0, hr, emit_trace, exit_trace, print_err, emit_status,
        exit_status, EXIT_FAILURE, is_destroy_payload])
  · cases ex
    · cases v <;> simp [main, h0, hr, emit_trace, exit_trace, print_err, emit_status,
        exit_status, EXIT_FAILURE, is_destroy_payload]
    cases tok
    · cases v <;> simp [main, h0, hr, emit_trace, exit_trace, print_err, emit_status,
        exit_status, EXIT_FAILURE, is_destroy_payload]
    cases tok'
    · cases v <;> simp [main, h0, hr, emit_trace, exit_trace, print_err, emit_status,
        exit_status, EXIT_FAILURE, is_destroy_payload]
    cases sub
    · cases v <;> simp [main, h0, hr, emit_trace, exit_trace, print_err, emit_status,
        exit_status, EXIT_FAILURE, is_destroy_payload]
    cases pool
    · cases v <;> simp [main, h0, hr, emit_trace, exit_trace, print_err, emit_status,
        exit_status, EXIT_FAILURE, is_destroy_payload]
    cases enc
    · cases v <;> simp [main, h0, hr, emit_trace, exit_trace, print_err, emit_status,
        exit_status, EXIT_FAILURE, is_destroy_payload]
    cases dec
    · cases v <;> simp [main, h0, hr, emit_trace, exit_trace, print_err, emit_status,
        exit_status, EXIT_FAILURE, is_destroy_payload]
    cases rev <;>
      (cases v <;> simp [main, h0, hr, emit_trace, exit_trace, print_err, emit_status,
        exit_status, EXIT_FAILURE, is_destroy_payload])

/-- C4, the failing runs: after a successful encrypt, when decrypt fails neither `result`
nor `encoded` is released, and when revoke fails `decrypted` is released once and
`result` and `encoded` are not. -/
theorem payloads_leak_on_failure :
    ((main sdk_decrypt_fails argv_example stdin_pin).trace.any is_encrypt_success = true ∧
     (main sdk_decrypt_fails argv_example stdin_pin).trace.countP
       (is_destroy_payload .result) = 0 ∧
     (main sdk_decrypt_fails argv_example stdin_pin).trace.countP
       (is_destroy_payload .encoded) = 0 ∧
     (main sdk_decrypt_fails argv_example stdin_pin).status = EXIT_FAILURE) ∧
    ((main sdk_revoke_fails argv_example stdin_pin).trace.any is_decrypt_success = true ∧
     (main sdk_revoke_fails argv_example stdin_pin).trace.countP
       (is_destroy_payload .decrypted) = 1 ∧
     (main sdk_revoke_fails argv_example stdin_pin).trace.countP
       (is_destroy_payload .result) = 0 ∧
     (main sdk_revoke_fails argv_example stdin_pin).trace.countP
       (is_destroy_payload .encoded) = 0 ∧
     (main sdk_revoke_fails argv_example stdin_pin).status = EXIT_FAILURE) := by
  decide

end Starter
